import Mathlib

/-!
Shallow embedding of the christmas-tree repository (src/App.tsx,
src/components/Polaroids.tsx, src/components/Experience.tsx) over the
real numbers, together with theorems settling the specification claims.

Vectors and quaternions follow the three.js implementations used by the
code (Vector3.lerp, Quaternion.slerp, Object3D.lookAt, rotateOnAxis,
Euler conversions in XYZ order); JS Math.random() draws are modelled as
explicit real parameters in [0, 1).
-/

namespace ChristmasTree

open Real

noncomputable section

open scoped Classical

/-- three.js Vector3: a triple of real coordinates. -/
structure Vec3 where
  x : ℝ
  y : ℝ
  z : ℝ

/-- Modelled from the spec: the TreeMode enum from src/types.ts (the file
itself is not in the source tree); the spec states the scene has a
two-value toggle, FORMED vs CHAOS. -/
inductive TreeMode where
  | FORMED
  | CHAOS
  deriving DecidableEq, Repr

export TreeMode (FORMED CHAOS)

/-- App.tsx toggleMode: prev === FORMED ? CHAOS : FORMED. -/
def toggleMode (prev : TreeMode) : TreeMode :=
  if prev = FORMED then CHAOS else FORMED

/-- three.js Vector3.lerp(v, alpha): each coordinate moves by
(v - this) * alpha. -/
def Vec3.lerp (a v : Vec3) (alpha : ℝ) : Vec3 :=
  ⟨a.x + (v.x - a.x) * alpha, a.y + (v.y - a.y) * alpha, a.z + (v.z - a.z) * alpha⟩

/-- three.js Vector3.sub. -/
def Vec3.sub (a b : Vec3) : Vec3 :=
  ⟨a.x - b.x, a.y - b.y, a.z - b.z⟩

/-- three.js Vector3.dot. -/
def Vec3.dot (a b : Vec3) : ℝ :=
  a.x * b.x + a.y * b.y + a.z * b.z

/-- three.js Vector3.lengthSq. -/
def Vec3.lengthSq (a : Vec3) : ℝ :=
  a.x * a.x + a.y * a.y + a.z * a.z

/-- three.js Vector3.length. -/
def Vec3.len (a : Vec3) : ℝ :=
  Real.sqrt a.lengthSq

/-- three.js Vector3.distanceTo(v). -/
def Vec3.distanceTo (a v : Vec3) : ℝ :=
  (a.sub v).len

/-- three.js Vector3.cross. -/
def Vec3.cross (a b : Vec3) : Vec3 :=
  ⟨a.y * b.z - a.z * b.y, a.z * b.x - a.x * b.z, a.x * b.y - a.y * b.x⟩

/-- three.js Vector3.divideScalar. -/
def Vec3.divideScalar (a : Vec3) (s : ℝ) : Vec3 :=
  ⟨a.x / s, a.y / s, a.z / s⟩

/-- three.js Vector3.normalize: divideScalar(length || 1). -/
def Vec3.normalize (a : Vec3) : Vec3 :=
  a.divideScalar (if a.len = 0 then 1 else a.len)

/-- Polaroids.tsx photoData: the golden angle used for photo i,
theta = i * 2.39996. -/
def photoTheta (i : ℕ) : ℝ :=
  (i : ℝ) * 2.39996

/-- Polaroids.tsx photoData: normalized height of photo i of count,
yNorm = 0.2 + (i / count) * 0.6. -/
def photoYNorm (count i : ℕ) : ℝ :=
  0.2 + ((i : ℝ) / (count : ℝ)) * 0.6

/-- Polaroids.tsx photoData: cone radius at photo i of count,
r = maxRadius * (1 - yNorm) + 0.8 with maxRadius = 5.0. -/
def photoRadius (count i : ℕ) : ℝ :=
  5.0 * (1 - photoYNorm count i) + 0.8

/-- Polaroids.tsx photoData, formed-tree target position of photo i of
count: (r cos theta, yNorm * height, r sin theta) with height = 9. -/
def photoTargetPos (count i : ℕ) : Vec3 :=
  ⟨photoRadius count i * Real.cos (photoTheta i),
   photoYNorm count i * 9,
   photoRadius count i * Real.sin (photoTheta i)⟩

/-- Polaroids.tsx photoData, chaos scatter position of photo i of count.
u and v stand for the two Math.random() draws (distance and height
spread), each in [0, 1). relativeY = 5, relativeZ = 20,
angle = (i / count) * pi * 2, distance = 3 + u * 4,
heightSpread = (v - 0.5) * 8. -/
def photoChaosPos (count i : ℕ) (u v : ℝ) : Vec3 :=
  ⟨(3 + u * 4) * Real.cos (((i : ℝ) / (count : ℝ)) * Real.pi * 2) * 1.2,
   5 + (v - 0.5) * 8,
   20 - 4 + (3 + u * 4) * Real.sin (((i : ℝ) / (count : ℝ)) * Real.pi * 2) * 0.5⟩

/-- App.tsx state relevant to the claims: the mode, the uploaded photo
URLs and the currently selected photo (null when no modal is open). -/
structure AppState where
  mode : TreeMode
  uploadedPhotos : List String
  selectedPhoto : Option String

/-- App.tsx handlePhotoClick: setSelectedPhoto(photoUrl). -/
def handlePhotoClick (s : AppState) (photoUrl : String) : AppState :=
  { s with selectedPhoto := some photoUrl }

/-- App.tsx closePhotoPopup: setSelectedPhoto(null). -/
def closePhotoPopup (s : AppState) : AppState :=
  { s with selectedPhoto := none }

/-- The photo popup modal of App.tsx, reduced to the data the claims
mention: the src of its img element. -/
structure PhotoModal where
  imgSrc : String

/-- App.tsx render of the modal: guarded by selectedPhoto being non-null,
and the img src is selectedPhoto itself. -/
def renderPhotoModal (s : AppState) : Option PhotoModal :=
  match s.selectedPhoto with
  | some url => some { imgSrc := url }
  | none => none

/-- Polaroids.tsx PolaroidItem.handleClick: invokes onPhotoClick(data.url)
only when the callback is provided and the error flag is clear. The
result is the argument of the invocation, none when nothing is invoked. -/
def PolaroidItem.handleClick (hasOnPhotoClick error : Bool) (url : String) :
    Option String :=
  if hasOnPhotoClick && !error then some url else none

/-- A loaded texture, identified by the URL it was loaded from. -/
structure Texture where
  url : String

/-- The material rendered in the photo area of a PolaroidItem: either the
basic material mapped with the loaded texture, or a flat fallback color. -/
inductive PhotoAreaMaterial where
  | mapped (tex : Texture)
  | fallback (color : String)

/-- Polaroids.tsx PolaroidItem photo-area render: texture && !error gives
the mapped basic material, otherwise the fallback standard material,
colored "#550000" on error and "#cccccc" while loading. -/
def photoAreaMaterial (texture : Option Texture) (error : Bool) :
    PhotoAreaMaterial :=
  match texture, error with
  | some tex, false => PhotoAreaMaterial.mapped tex
  | _, _ => PhotoAreaMaterial.fallback (if error then "#550000" else "#cccccc")

/-- Polaroids.tsx PolaroidItem text label: "Image not found" on error,
"Happy Memories" otherwise. -/
def polaroidLabel (error : Bool) : String :=
  if error then "Image not found" else "Happy Memories"

/-- Polaroids.tsx PhotoData. -/
structure PhotoData where
  id : ℕ
  url : String
  chaosPos : Vec3
  targetPos : Vec3
  speed : ℝ

/-- Polaroids.tsx photoData useMemo: the empty input yields the empty
list, otherwise one entry per uploaded photo, in order. u and v are the
per-index Math.random() draws of the chaos position and w the per-index
draw of the speed, each in [0, 1). -/
def mkPhotoData (uploadedPhotos : List String) (u v w : ℕ → ℝ) :
    List PhotoData :=
  if uploadedPhotos.length = 0 then []
  else uploadedPhotos.enum.map fun p =>
    { id := p.1
      url := p.2
      chaosPos := photoChaosPos uploadedPhotos.length p.1 (u p.1) (v p.1)
      targetPos := photoTargetPos uploadedPhotos.length p.1
      speed := 0.8 + w p.1 * 1.5 }

/-- JS Math.atan2 over the reals: arctan of y/x corrected by quadrant. -/
def atan2 (y x : ℝ) : ℝ :=
  if 0 < x then Real.arctan (y / x)
  else if x < 0 then
    (if 0 ≤ y then Real.arctan (y / x) + Real.pi
     else Real.arctan (y / x) - Real.pi)
  else
    (if 0 < y then Real.pi / 2 else if y < 0 then -(Real.pi / 2) else 0)

/-- three.js MathUtils.clamp(value, lo, hi). -/
def clamp (value lo hi : ℝ) : ℝ :=
  max lo (min hi value)

/-- JS Number.EPSILON. -/
def numberEpsilon : ℝ :=
  1 / 2 ^ (52 : ℕ)

/-- three.js Quaternion. -/
structure Quat where
  x : ℝ
  y : ℝ
  z : ℝ
  w : ℝ

/-- three.js Quaternion.multiplyQuaternions(a, b). -/
def Quat.multiply (a b : Quat) : Quat :=
  ⟨a.x * b.w + a.w * b.x + a.y * b.z - a.z * b.y,
   a.y * b.w + a.w * b.y + a.z * b.x - a.x * b.z,
   a.z * b.w + a.w * b.z + a.x * b.y - a.y * b.x,
   a.w * b.w - a.x * b.x - a.y * b.y - a.z * b.z⟩

/-- three.js Quaternion.setFromAxisAngle(axis, angle) (axis assumed
normalized by three.js). -/
def Quat.setFromAxisAngle (axis : Vec3) (angle : ℝ) : Quat :=
  ⟨axis.x * Real.sin (angle / 2), axis.y * Real.sin (angle / 2),
   axis.z * Real.sin (angle / 2), Real.cos (angle / 2)⟩

/-- three.js Quaternion.length. -/
def Quat.len (q : Quat) : ℝ :=
  Real.sqrt (q.x * q.x + q.y * q.y + q.z * q.z + q.w * q.w)

/-- three.js Quaternion.normalize. -/
def Quat.normalize (q : Quat) : Quat :=
  if q.len = 0 then ⟨0, 0, 0, 1⟩
  else ⟨q.x * (1 / q.len), q.y * (1 / q.len), q.z * (1 / q.len),
        q.w * (1 / q.len)⟩

/-- three.js Quaternion.slerp(qb, t), called on qa. -/
def Quat.slerp (qa qb : Quat) (t : ℝ) : Quat :=
  if t = 0 then qa
  else if t = 1 then qb
  else
    let cosHalfTheta0 := qa.w * qb.w + qa.x * qb.x + qa.y * qb.y + qa.z * qb.z
    let target : Quat :=
      if cosHalfTheta0 < 0 then ⟨-qb.x, -qb.y, -qb.z, -qb.w⟩ else qb
    let cosHalfTheta := if cosHalfTheta0 < 0 then -cosHalfTheta0 else cosHalfTheta0
    if 1 ≤ cosHalfTheta then qa
    else
      let sqrSinHalfTheta := 1 - cosHalfTheta * cosHalfTheta
      if sqrSinHalfTheta ≤ numberEpsilon then
        Quat.normalize
          ⟨(1 - t) * qa.x + t * target.x, (1 - t) * qa.y + t * target.y,
           (1 - t) * qa.z + t * target.z, (1 - t) * qa.w + t * target.w⟩
      else
        let sinHalfTheta := Real.sqrt sqrSinHalfTheta
        let halfTheta := atan2 sinHalfTheta cosHalfTheta
        let ratioA := Real.sin ((1 - t) * halfTheta) / sinHalfTheta
        let ratioB := Real.sin (t * halfTheta) / sinHalfTheta
        ⟨qa.x * ratioA + target.x * ratioB, qa.y * ratioA + target.y * ratioB,
         qa.z * ratioA + target.z * ratioB, qa.w * ratioA + target.w * ratioB⟩

/-- The rotation part of a three.js Matrix4, as its three basis columns. -/
structure Mat3 where
  xAxis : Vec3
  yAxis : Vec3
  zAxis : Vec3

/-- three.js Matrix4.lookAt(eye, target, up): the rotation basis, with
the degenerate-direction fallbacks of the source. -/
def lookAtBasis (eye target up : Vec3) : Mat3 :=
  let z0 := eye.sub target
  let z1 := if z0.lengthSq = 0 then { z0 with z := 1 } else z0
  let z := z1.normalize
  let x0 := up.cross z
  if x0.lengthSq = 0 then
    let z2 := if |up.z| = 1 then { z with x := z.x + 0.0001 }
              else { z with z := z.z + 0.0001 }
    let z3 := z2.normalize
    let x1 := (up.cross z3).normalize
    ⟨x1, z3.cross x1, z3⟩
  else
    let x := x0.normalize
    ⟨x, z.cross x, z⟩

/-- three.js Quaternion.setFromRotationMatrix(m) (Shepperd's branching on
the trace). -/
def Quat.setFromRotationMatrix (m : Mat3) : Quat :=
  let m11 := m.xAxis.x; let m12 := m.yAxis.x; let m13 := m.zAxis.x
  let m21 := m.xAxis.y; let m22 := m.yAxis.y; let m23 := m.zAxis.y
  let m31 := m.xAxis.z; let m32 := m.yAxis.z; let m33 := m.zAxis.z
  let trace := m11 + m22 + m33
  if 0 < trace then
    let s := 0.5 / Real.sqrt (trace + 1)
    ⟨(m32 - m23) * s, (m13 - m31) * s, (m21 - m12) * s, 0.25 / s⟩
  else if m22 < m11 ∧ m33 < m11 then
    let s := 2 * Real.sqrt (1 + m11 - m22 - m33)
    ⟨0.25 * s, (m12 + m21) / s, (m13 + m31) / s, (m32 - m23) / s⟩
  else if m33 < m22 then
    let s := 2 * Real.sqrt (1 + m22 - m11 - m33)
    ⟨(m12 + m21) / s, 0.25 * s, (m23 + m32) / s, (m13 - m31) / s⟩
  else
    let s := 2 * Real.sqrt (1 + m33 - m11 - m22)
    ⟨(m13 + m31) / s, (m23 + m32) / s, 0.25 * s, (m21 - m12) / s⟩

/-- three.js Object3D.lookAt(target) for a plain (non-camera) object at
world position p: Matrix4.lookAt(target, p, up) with the default up
(0, 1, 0), then Quaternion.setFromRotationMatrix. -/
def lookAtQuat (position target : Vec3) : Quat :=
  Quat.setFromRotationMatrix (lookAtBasis target position ⟨0, 1, 0⟩)

/-- three.js Matrix4.makeRotationFromQuaternion (the compose formula). -/
def Quat.toRotationMatrix (q : Quat) : Mat3 :=
  let x2 := q.x + q.x; let y2 := q.y + q.y; let z2 := q.z + q.z
  let xx := q.x * x2; let xy := q.x * y2; let xz := q.x * z2
  let yy := q.y * y2; let yz := q.y * z2; let zz := q.z * z2
  let wx := q.w * x2; let wy := q.w * y2; let wz := q.w * z2
  ⟨⟨1 - (yy + zz), xy + wz, xz - wy⟩,
   ⟨xy - wz, 1 - (xx + zz), yz + wx⟩,
   ⟨xz + wy, yz - wx, 1 - (xx + yy)⟩⟩

/-- three.js Euler angles in the default XYZ order. -/
structure Euler3 where
  x : ℝ
  y : ℝ
  z : ℝ

/-- three.js Euler.setFromQuaternion in XYZ order (via
makeRotationFromQuaternion and Euler.setFromRotationMatrix). -/
def Euler3.setFromQuaternion (q : Quat) : Euler3 :=
  let m := q.toRotationMatrix
  let m11 := m.xAxis.x; let m12 := m.yAxis.x; let m13 := m.zAxis.x
  let m22 := m.yAxis.y; let m23 := m.zAxis.y
  let m32 := m.yAxis.z; let m33 := m.zAxis.z
  ⟨if |m13| < 0.9999999 then atan2 (-m23) m33 else atan2 m32 m22,
   Real.arcsin (clamp m13 (-1) 1),
   if |m13| < 0.9999999 then atan2 (-m12) m11 else 0⟩

/-- three.js Quaternion.setFromEuler in XYZ order. -/
def Quat.setFromEuler (e : Euler3) : Quat :=
  let c1 := Real.cos (e.x / 2); let c2 := Real.cos (e.y / 2)
  let c3 := Real.cos (e.z / 2)
  let s1 := Real.sin (e.x / 2); let s2 := Real.sin (e.y / 2)
  let s3 := Real.sin (e.z / 2)
  ⟨s1 * c2 * c3 + c1 * s2 * s3,
   c1 * s2 * c3 - s1 * c2 * s3,
   c1 * c2 * s3 + s1 * s2 * c3,
   c1 * c2 * c3 - s1 * s2 * s3⟩

/-- The mutable Object3D state of one polaroid group that useFrame
updates: position, quaternion (the rotation Euler is kept in sync with it
by three.js) and scale. -/
structure ObjState where
  position : Vec3
  quaternion : Quat
  scale : Vec3

/-- Polaroids.tsx PolaroidItem.useFrame, one frame: position lerp toward
the mode's target, hover-scale lerp, then the mode's rotation logic.
swayOffset is the memoized Math.random() * 100 draw, time the elapsed
clock time and delta the frame time step. In FORMED: slerp toward the
look-at of (0, y, 0) flipped by rotateY(pi), rotateZ by the sway, then
the two Euler-angle writes (three.js re-derives the rotation Euler from
the quaternion in XYZ order, and each write re-builds the quaternion from
the updated Euler, so the net effect is one setFromEuler of the adjusted
angles). In CHAOS: slerp toward the look-at of the camera point
(0, 9, 20), then the two wobble Euler-angle writes. -/
def polaroidFrame (mode : TreeMode) (data : PhotoData) (hovered : Bool)
    (swayOffset time delta : ℝ) (st : ObjState) : ObjState :=
  let targetPos := if mode = FORMED then data.targetPos else data.chaosPos
  let step := delta * data.speed
  let position := st.position.lerp targetPos step
  let targetScale : ℝ := if hovered then 1.15 else 1
  let scale := st.scale.lerp ⟨targetScale, targetScale, targetScale⟩ (delta * 8)
  if mode = FORMED then
    let dummyQuat := (lookAtQuat position ⟨0, position.y, 0⟩).multiply
      (Quat.setFromAxisAngle ⟨0, 1, 0⟩ Real.pi)
    let q1 := Quat.slerp st.quaternion dummyQuat step
    let swayAngle := Real.sin (time * 2.0 + swayOffset) * 0.08
    let tiltAngle := Real.cos (time * 1.5 + swayOffset) * 0.05
    let q2 := q1.multiply
      (Quat.setFromAxisAngle ⟨0, 0, 1⟩ (swayAngle * delta * 5))
    let currentRot := Euler3.setFromQuaternion q2
    let quaternion := Quat.setFromEuler
      ⟨currentRot.x + tiltAngle * 0.05, currentRot.y,
       currentRot.z + swayAngle * 0.05⟩
    ⟨position, quaternion, scale⟩
  else
    let cameraPos : Vec3 := ⟨0, 9, 20⟩
    let dummyQuat := lookAtQuat position cameraPos
    let q1 := Quat.slerp st.quaternion dummyQuat (delta * 3)
    let wobbleX := Real.sin (time * 1.5 + swayOffset) * 0.03
    let wobbleZ := Real.cos (time * 1.2 + swayOffset) * 0.03
    let currentRot := Euler3.setFromQuaternion q1
    let quaternion := Quat.setFromEuler
      ⟨currentRot.x + wobbleX, currentRot.y, currentRot.z + wobbleZ⟩
    ⟨position, quaternion, scale⟩

/-- The position target selected by the mode (the claims' reading of the
frame logic, to be compared with polaroidFrame). -/
def modeTarget (mode : TreeMode) (data : PhotoData) : Vec3 :=
  if mode = FORMED then data.targetPos else data.chaosPos

/-- The slerp target quaternion selected by the mode at position p (the
claims' reading, to be compared with polaroidFrame). -/
def rotTarget (mode : TreeMode) (p : Vec3) : Quat :=
  if mode = FORMED then
    (lookAtQuat p ⟨0, p.y, 0⟩).multiply
      (Quat.setFromAxisAngle ⟨0, 1, 0⟩ Real.pi)
  else lookAtQuat p ⟨0, 9, 20⟩

/-- The slerp fraction selected by the mode (the claims' reading, to be
compared with polaroidFrame). -/
def rotFraction (mode : TreeMode) (delta speed : ℝ) : ℝ :=
  if mode = FORMED then delta * speed else delta * 3

/-- The post-slerp sway/wobble stage of the frame rotation logic, per
mode (the claims' reading, to be compared with polaroidFrame). -/
def swayStage (mode : TreeMode) (swayOffset time delta : ℝ) (q : Quat) :
    Quat :=
  if mode = FORMED then
    let swayAngle := Real.sin (time * 2.0 + swayOffset) * 0.08
    let tiltAngle := Real.cos (time * 1.5 + swayOffset) * 0.05
    let q2 := q.multiply
      (Quat.setFromAxisAngle ⟨0, 0, 1⟩ (swayAngle * delta * 5))
    let currentRot := Euler3.setFromQuaternion q2
    Quat.setFromEuler
      ⟨currentRot.x + tiltAngle * 0.05, currentRot.y,
       currentRot.z + swayAngle * 0.05⟩
  else
    let currentRot := Euler3.setFromQuaternion q
    Quat.setFromEuler
      ⟨currentRot.x + Real.sin (time * 1.5 + swayOffset) * 0.03,
       currentRot.y,
       currentRot.z + Real.cos (time * 1.2 + swayOffset) * 0.03⟩

/-- One step of the closest-photo scan of Polaroids.tsx useFrame: for
child (i, worldPos) with the guard i < photoData.length, compare the
distance to the camera with the running minimum (none stands for the
initial Infinity) and keep the strictly smaller one. -/
def closestStep (camera : Vec3) (photoCount : ℕ) (acc : Option ℝ × ℕ)
    (p : ℕ × Vec3) : Option ℝ × ℕ :=
  if p.1 < photoCount then
    match acc.1 with
    | none => (some (p.2.distanceTo camera), p.1)
    | some m =>
        if p.2.distanceTo camera < m then (some (p.2.distanceTo camera), p.1)
        else acc
  else acc

/-- Polaroids.tsx useFrame body: with two hands detected and photos
present, scan the children world positions for the one closest to the
camera and invoke onClosestPhotoChange with uploadedPhotos[closestIndex];
otherwise invoke it with null. The result is the argument passed to the
callback (photoData has one entry per uploaded photo, so
photoData.length = uploadedPhotos.length). -/
def closestPhotoCallbackArg (twoHands : Bool) (uploadedPhotos : List String)
    (positions : List Vec3) (camera : Vec3) : Option String :=
  if twoHands ∧ 0 < uploadedPhotos.length then
    some (uploadedPhotos.getD
      ((positions.enum.foldl (closestStep camera uploadedPhotos.length)
        (none, 0)).2) "")
  else none

/-- Experience.tsx: the Polaroids element is mounted with
twoHandsDetected = false. -/
def experienceTwoHandsDetected : Bool := false

/-- One rendered PolaroidItem element, with its key/index and data. -/
structure PolaroidItemNode where
  index : ℕ
  data : PhotoData
  mode : TreeMode

/-- Polaroids.tsx return value: photoData.map over (data, i) producing one
PolaroidItem per entry. -/
def renderPolaroids (mode : TreeMode) (photoData : List PhotoData) :
    List PolaroidItemNode :=
  photoData.enum.map fun p => { index := p.1, data := p.2, mode := mode }

end

/-- Claim C3: the tree mode takes exactly the two values FORMED and CHAOS,
toggleMode maps FORMED to CHAOS and every other mode to FORMED, toggling
twice is the identity, so the mode state machine has exactly two reachable
states. -/
theorem toggleMode_involutive_two_states :
    toggleMode FORMED = CHAOS ∧ toggleMode CHAOS = FORMED ∧
    (∀ m : TreeMode, toggleMode (toggleMode m) = m) ∧
    (∀ m : TreeMode, m = FORMED ∨ m = CHAOS) := by
  refine ⟨rfl, rfl, ?_, ?_⟩ <;> intro m <;> cases m <;> simp [toggleMode]

/-- Claim C1: for a non-empty photo list of length n and 0 <= i < n, the
formed-tree target of photo i is (r cos theta, y, r sin theta) with
theta = i * 2.39996, yNorm = 0.2 + (i/n) * 0.6, y = 9 * yNorm and
r = 5.0 * (1 - yNorm) + 0.8; successive photos differ by the golden angle,
yNorm lies in [0.2, 0.8), r > 0.8 and the radius is an affine, decreasing
function of the height. -/
theorem photoTargetPos_spec (n i : ℕ) (hn : 0 < n) (hi : i < n) :
    photoTargetPos n i =
      ⟨(5.0 * (1 - (0.2 + ((i : ℝ) / (n : ℝ)) * 0.6)) + 0.8) *
         Real.cos ((i : ℝ) * 2.39996),
       9 * (0.2 + ((i : ℝ) / (n : ℝ)) * 0.6),
       (5.0 * (1 - (0.2 + ((i : ℝ) / (n : ℝ)) * 0.6)) + 0.8) *
         Real.sin ((i : ℝ) * 2.39996)⟩ ∧
    photoTheta (i + 1) - photoTheta i = 2.39996 ∧
    0.2 ≤ photoYNorm n i ∧ photoYNorm n i < 0.8 ∧
    0.8 < photoRadius n i ∧
    photoRadius n i = 5.8 - (5 / 9) * (photoYNorm n i * 9) := by
  have hn' : (0 : ℝ) < (n : ℝ) := by exact_mod_cast hn
  have h0 : (0 : ℝ) ≤ (i : ℝ) / (n : ℝ) :=
    div_nonneg (Nat.cast_nonneg i) (Nat.cast_nonneg n)
  have h1 : (i : ℝ) / (n : ℝ) < 1 :=
    (div_lt_one hn').mpr (by exact_mod_cast hi)
  refine ⟨?_, ?_, ?_, ?_, ?_, ?_⟩
  · simp only [photoTargetPos, photoYNorm, photoRadius, photoTheta, Vec3.mk.injEq,
      true_and, and_true]
    ring
  · simp only [photoTheta]
    push_cast
    ring
  · simp only [photoYNorm]
    nlinarith
  · simp only [photoYNorm]
    nlinarith
  · simp only [photoRadius, photoYNorm]
    nlinarith
  · simp only [photoRadius, photoYNorm]
    ring

/-- Witness for Claim C1 at n = 3, i = 1. -/
theorem photoTargetPos_spec_witness :
    0 < 3 ∧ 1 < 3 ∧ 0.8 < photoRadius 3 1 :=
  ⟨by norm_num, by norm_num,
   (photoTargetPos_spec 3 1 (by norm_num) (by norm_num)).2.2.2.2.1⟩

/-- Claim C6 counterexample: with both random draws 0 (a legal value of
Math.random()), the chaos y coordinate of photo 0 of 1 equals 1, which is
not in the open interval (1, 9) the claim asserts. -/
theorem photoChaosPos_open_interval_cex :
    ((0 : ℝ) ≤ 0 ∧ (0 : ℝ) < 1) ∧
    ¬ (1 < (photoChaosPos 1 0 0 0).y ∧ (photoChaosPos 1 0 0 0).y < 9) := by
  constructor
  · norm_num
  · simp only [photoChaosPos]
    norm_num

/-- Claim C6 (amended): for draws u, v in [0, 1) the chaos position of
photo i of n has x = distance * cos(angle) * 1.2 with
angle = (i/n) * 2 * pi and distance in [3, 7), y in the half-open
interval [1, 9), and z = 16 + distance * sin(angle) * 0.5, hence z
strictly between 12.5 and 19.5. -/
theorem photoChaosPos_spec (n i : ℕ) (u v : ℝ)
    (hu0 : 0 ≤ u) (hu1 : u < 1) (hv0 : 0 ≤ v) (hv1 : v < 1) :
    ((i : ℝ) / (n : ℝ)) * Real.pi * 2 = ((i : ℝ) / (n : ℝ)) * (2 * Real.pi) ∧
    (photoChaosPos n i u v).x =
      (3 + u * 4) * Real.cos (((i : ℝ) / (n : ℝ)) * Real.pi * 2) * 1.2 ∧
    3 ≤ 3 + u * 4 ∧ 3 + u * 4 < 7 ∧
    1 ≤ (photoChaosPos n i u v).y ∧ (photoChaosPos n i u v).y < 9 ∧
    (photoChaosPos n i u v).z =
      16 + (3 + u * 4) * Real.sin (((i : ℝ) / (n : ℝ)) * Real.pi * 2) * 0.5 ∧
    12.5 < (photoChaosPos n i u v).z ∧ (photoChaosPos n i u v).z < 19.5 := by
  have hd0 : (0 : ℝ) ≤ 3 + u * 4 := by linarith
  have hs1 : Real.sin (((i : ℝ) / (n : ℝ)) * Real.pi * 2) ≤ 1 :=
    Real.sin_le_one _
  have hs0 : -1 ≤ Real.sin (((i : ℝ) / (n : ℝ)) * Real.pi * 2) :=
    Real.neg_one_le_sin _
  have hub : (3 + u * 4) * Real.sin (((i : ℝ) / (n : ℝ)) * Real.pi * 2)
      ≤ (3 + u * 4) * 1 := mul_le_mul_of_nonneg_left hs1 hd0
  have hlb : (3 + u * 4) * (-1)
      ≤ (3 + u * 4) * Real.sin (((i : ℝ) / (n : ℝ)) * Real.pi * 2) :=
    mul_le_mul_of_nonneg_left hs0 hd0
  refine ⟨by ring, rfl, by linarith, by linarith, ?_, ?_, ?_, ?_, ?_⟩
  · simp only [photoChaosPos]
    linarith
  · simp only [photoChaosPos]
    linarith
  · simp only [photoChaosPos]
    ring
  · simp only [photoChaosPos]
    nlinarith
  · simp only [photoChaosPos]
    nlinarith

/-- Witness for the amended Claim C6 at n = 2, i = 1, u = v = 1/2. -/
theorem photoChaosPos_spec_witness :
    (0 : ℝ) ≤ 1 / 2 ∧ (1 / 2 : ℝ) < 1 ∧
    12.5 < (photoChaosPos 2 1 (1 / 2) (1 / 2)).z :=
  ⟨by norm_num, by norm_num,
   (photoChaosPos_spec 2 1 (1 / 2) (1 / 2) (by norm_num) (by norm_num)
     (by norm_num) (by norm_num)).2.2.2.2.2.2.2.1⟩

/-- Claim C7: clicking a polaroid (callback wired, no texture error) emits
its URL and handlePhotoClick sets the selected photo to that URL, after
which the overlay renders a modal displaying exactly that URL; closing the
modal sets the selected photo back to null and removes the modal; the
modal is rendered if and only if the selected photo is non-null, and it
always displays exactly the selected URL. -/
theorem photo_modal_spec :
    (∀ (s : AppState) (url : String),
      PolaroidItem.handleClick true false url = some url ∧
      (handlePhotoClick s url).selectedPhoto = some url ∧
      renderPhotoModal (handlePhotoClick s url) = some { imgSrc := url }) ∧
    (∀ s : AppState,
      (closePhotoPopup s).selectedPhoto = none ∧
      renderPhotoModal (closePhotoPopup s) = none) ∧
    (∀ s : AppState, (renderPhotoModal s).isSome ↔ s.selectedPhoto.isSome) ∧
    (∀ (s : AppState) (m : PhotoModal),
      renderPhotoModal s = some m → s.selectedPhoto = some m.imgSrc) := by
  refine ⟨fun s url => ⟨rfl, rfl, rfl⟩, fun s => ⟨rfl, rfl⟩, fun s => ?_, fun s m => ?_⟩
  · cases h : s.selectedPhoto <;> simp [renderPhotoModal, h]
  · cases h : s.selectedPhoto <;> simp [renderPhotoModal, h]
    intro hm
    simp [← hm]

/-- Witness for Claim C7: a state whose modal shows "p.jpg" has selected
photo "p.jpg". -/
theorem photo_modal_spec_witness :
    AppState.selectedPhoto ⟨FORMED, [], some "p.jpg"⟩ = some "p.jpg" :=
  photo_modal_spec.2.2.2 ⟨FORMED, [], some "p.jpg"⟩ ⟨"p.jpg"⟩ rfl

/-- Claim C9: when the error flag is set, clicking never invokes the
onPhotoClick callback (whether or not one is provided), the photo area
renders the dark-red fallback material "#550000" whatever the texture
state, and the label reads "Image not found". -/
theorem errored_polaroid_spec (tex : Option Texture) (hasCb : Bool)
    (url : String) :
    PolaroidItem.handleClick hasCb true url = none ∧
    photoAreaMaterial tex true = PhotoAreaMaterial.fallback "#550000" ∧
    polaroidLabel true = "Image not found" := by
  refine ⟨?_, ?_, rfl⟩
  · cases hasCb <;> rfl
  · cases tex <;> rfl

/-- Claim C8: an empty upload list produces an empty photo-data list and
no rendered polaroids; a list of length n produces exactly n entries in
order, entry i having id i and the i-th uploaded URL, and exactly one
PolaroidItem is rendered per entry. -/
theorem mkPhotoData_spec (photos : List String) (u v w : ℕ → ℝ)
    (mode : TreeMode) :
    mkPhotoData [] u v w = [] ∧
    renderPolaroids mode (mkPhotoData [] u v w) = [] ∧
    (mkPhotoData photos u v w).length = photos.length ∧
    (∀ i, i < photos.length →
      ((mkPhotoData photos u v w)[i]?).map PhotoData.id = some i ∧
      ((mkPhotoData photos u v w)[i]?).map PhotoData.url = photos[i]?) ∧
    (renderPolaroids mode (mkPhotoData photos u v w)).length =
      (mkPhotoData photos u v w).length := by
  refine ⟨?_, ?_, ?_, ?_, ?_⟩
  · simp [mkPhotoData]
  · simp [mkPhotoData, renderPolaroids]
  · by_cases h : photos.length = 0
    · simp [mkPhotoData, h, List.length_eq_zero.mp h]
    · simp [mkPhotoData, h]
  · intro i hi
    have h : ¬ photos.length = 0 := by omega
    have hi' : photos[i]? = some photos[i] := List.getElem?_eq_getElem hi
    constructor <;>
      simp [mkPhotoData, h, List.getElem?_map, List.getElem?_enum, hi']
  · simp [renderPolaroids]

/-- Witness for Claim C8 at the two-element list of URLs, index 1. -/
theorem mkPhotoData_spec_witness :
    1 < (["a.jpg", "b.jpg"] : List String).length ∧
    ((mkPhotoData ["a.jpg", "b.jpg"] (fun _ => 0) (fun _ => 0)
        (fun _ => 0))[1]?).map PhotoData.id = some 1 :=
  ⟨by norm_num,
   ((mkPhotoData_spec ["a.jpg", "b.jpg"] (fun _ => 0) (fun _ => 0)
       (fun _ => 0) FORMED).2.2.2.1 1 (by norm_num)).1⟩

/-- Claim C2: on every frame the polaroid position is updated by linear
interpolation toward the target selected solely by the mode — the formed
target in FORMED, the chaos position in CHAOS — with fraction
delta * speed, speed being the photo's own stored speed; no other target
is ever used. -/
theorem polaroid_position_lerp (mode : TreeMode) (data : PhotoData)
    (hovered : Bool) (swayOffset time delta : ℝ) (st : ObjState) :
    (polaroidFrame mode data hovered swayOffset time delta st).position =
      Vec3.lerp st.position (modeTarget mode data) (delta * data.speed) ∧
    modeTarget FORMED data = data.targetPos ∧
    modeTarget CHAOS data = data.chaosPos := by
  refine ⟨?_, rfl, rfl⟩
  cases mode <;> rfl

/-- Claim C4: on every frame the polaroid orientation is slerped toward
the mode's target quaternion — in FORMED the look-at of the tree-axis
point (0, y, 0) at the polaroid's own height composed with a pi rotation
about Y, by fraction delta * speed; in CHAOS the look-at of the camera
point (0, 9, 20), by fraction delta * 3 — followed only by the sway
stage. -/
theorem polaroid_rotation_slerp (mode : TreeMode) (data : PhotoData)
    (hovered : Bool) (swayOffset time delta : ℝ) (st : ObjState) :
    (polaroidFrame mode data hovered swayOffset time delta st).quaternion =
      swayStage mode swayOffset time delta
        (Quat.slerp st.quaternion
          (rotTarget mode
            (polaroidFrame mode data hovered swayOffset time delta st).position)
          (rotFraction mode delta data.speed)) ∧
    (∀ p : Vec3, rotTarget FORMED p =
      (lookAtQuat p ⟨0, p.y, 0⟩).multiply
        (Quat.setFromAxisAngle ⟨0, 1, 0⟩ Real.pi)) ∧
    (∀ p : Vec3, rotTarget CHAOS p = lookAtQuat p ⟨0, 9, 20⟩) ∧
    rotFraction FORMED delta data.speed = delta * data.speed ∧
    rotFraction CHAOS delta data.speed = delta * 3 := by
  refine ⟨?_, fun p => rfl, fun p => rfl, rfl, rfl⟩
  cases mode <;> rfl

/-- Claim C5: in FORMED the sway sin(time * 2.0 + offset) * 0.08 is
applied both as rotateZ(sway * delta * 5) and as a 0.05-scaled additive
term on the Z Euler angle, and the tilt cos(time * 1.5 + offset) * 0.05
contributes 0.05 * 0.05-scaled on the X Euler angle; in CHAOS the wobble
adds sin(time * 1.5 + offset) * 0.03 on X and
cos(time * 1.2 + offset) * 0.03 on Z. -/
theorem polaroid_sway_wobble (swayOffset time delta : ℝ) (q : Quat) :
    swayStage FORMED swayOffset time delta q =
      Quat.setFromEuler
        ⟨(Euler3.setFromQuaternion
            (q.multiply (Quat.setFromAxisAngle ⟨0, 0, 1⟩
              (Real.sin (time * 2.0 + swayOffset) * 0.08 * delta * 5)))).x +
            Real.cos (time * 1.5 + swayOffset) * 0.05 * 0.05,
         (Euler3.setFromQuaternion
            (q.multiply (Quat.setFromAxisAngle ⟨0, 0, 1⟩
              (Real.sin (time * 2.0 + swayOffset) * 0.08 * delta * 5)))).y,
         (Euler3.setFromQuaternion
            (q.multiply (Quat.setFromAxisAngle ⟨0, 0, 1⟩
              (Real.sin (time * 2.0 + swayOffset) * 0.08 * delta * 5)))).z +
            Real.sin (time * 2.0 + swayOffset) * 0.08 * 0.05⟩ ∧
    swayStage CHAOS swayOffset time delta q =
      Quat.setFromEuler
        ⟨(Euler3.setFromQuaternion q).x +
            Real.sin (time * 1.5 + swayOffset) * 0.03,
         (Euler3.setFromQuaternion q).y,
         (Euler3.setFromQuaternion q).z +
            Real.cos (time * 1.2 + swayOffset) * 0.03⟩ := by
  exact ⟨rfl, rfl⟩

/-- Folding the closest-photo step from a running minimum m at index j
over children (s, v), (s+1, ...) yields a minimum over the processed
entries, kept at the earliest index attaining it. -/
theorem closestStep_foldl_spec (camera : Vec3) (photoCount : ℕ) :
    ∀ (l : List Vec3) (s : ℕ) (m : ℝ) (j : ℕ), j < s →
      s + l.length ≤ photoCount →
      ∃ m' j',
        (List.enumFrom s l).foldl (closestStep camera photoCount) (some m, j)
          = (some m', j') ∧
        ((m' = m ∧ j' = j) ∨
          (m' < m ∧ ∃ k, k < l.length ∧ j' = s + k ∧
            (l.getD k ⟨0, 0, 0⟩).distanceTo camera = m')) ∧
        m' ≤ m ∧
        (∀ k, k < l.length → m' ≤ (l.getD k ⟨0, 0, 0⟩).distanceTo camera) ∧
        (∀ k, k < l.length → s + k < j' →
          m' < (l.getD k ⟨0, 0, 0⟩).distanceTo camera) := by
  intro l
  induction l with
  | nil =>
      intro s m j hj _
      exact ⟨m, j, rfl, Or.inl ⟨rfl, rfl⟩, le_refl m,
        fun k hk => absurd hk (by simp), fun k hk => absurd hk (by simp)⟩
  | cons v tl ih =>
      intro s m j hj hcount
      have hs : s < photoCount := by simp only [List.length_cons] at hcount; omega
      have hcount' : s + 1 + tl.length ≤ photoCount := by
        simp only [List.length_cons] at hcount; omega
      by_cases hdm : v.distanceTo camera < m
      · obtain ⟨m', j', heq, hdisj, hle, hall, hstrict⟩ :=
          ih (s + 1) (v.distanceTo camera) s (Nat.lt_succ_self s) hcount'
        refine ⟨m', j', ?_, ?_, ?_, ?_, ?_⟩
        · rw [show List.enumFrom s (v :: tl)
              = (s, v) :: List.enumFrom (s + 1) tl from rfl, List.foldl_cons,
            show closestStep camera photoCount (some m, j) (s, v)
              = (some (v.distanceTo camera), s) from by
                simp [closestStep, hs, hdm]]
          exact heq
        · rcases hdisj with ⟨hm', hj'⟩ | ⟨hlt, k, hk, hjk, hdk⟩
          · exact Or.inr ⟨hm' ▸ hdm, 0, by simp, by omega,
              by simpa [List.getD_cons_zero] using hm'.symm⟩
          · exact Or.inr ⟨lt_trans hlt hdm, k + 1, by simpa using hk,
              by omega, by simpa [List.getD_cons_succ] using hdk⟩
        · exact le_of_lt (lt_of_le_of_lt hle hdm)
        · intro k hk
          cases k with
          | zero => simpa [List.getD_cons_zero] using hle
          | succ k =>
              simp only [List.getD_cons_succ]
              exact hall k (by simpa using hk)
        · intro k hk hkj
          cases k with
          | zero =>
              rcases hdisj with ⟨hm', hj'⟩ | ⟨hlt, _⟩
              · omega
              · simpa [List.getD_cons_zero] using hlt
          | succ k =>
              simp only [List.getD_cons_succ]
              exact hstrict k (by simpa using hk) (by omega)
      · obtain ⟨m', j', heq, hdisj, hle, hall, hstrict⟩ :=
          ih (s + 1) m j (by omega) hcount'
        have hmd : m ≤ v.distanceTo camera := not_lt.mp hdm
        refine ⟨m', j', ?_, ?_, hle, ?_, ?_⟩
        · rw [show List.enumFrom s (v :: tl)
              = (s, v) :: List.enumFrom (s + 1) tl from rfl, List.foldl_cons,
            show closestStep camera photoCount (some m, j) (s, v)
              = (some m, j) from by simp [closestStep, hs, hdm]]
          exact heq
        · rcases hdisj with hl | ⟨hlt, k, hk, hjk, hdk⟩
          · exact Or.inl hl
          · exact Or.inr ⟨hlt, k + 1, by simpa using hk, by omega,
              by simpa [List.getD_cons_succ] using hdk⟩
        · intro k hk
          cases k with
          | zero => simpa [List.getD_cons_zero] using le_trans hle hmd
          | succ k =>
              simp only [List.getD_cons_succ]
              exact hall k (by simpa using hk)
        · intro k hk hkj
          cases k with
          | zero =>
              rcases hdisj with ⟨hm', hj'⟩ | ⟨hlt, _⟩
              · omega
              · simpa [List.getD_cons_zero] using lt_of_lt_of_le hlt hmd
          | succ k =>
              simp only [List.getD_cons_succ]
              exact hstrict k (by simpa using hk) (by omega)

/-- The full closest-photo scan from the initial (Infinity, 0) state on a
non-empty children list returns the minimum distance and the lowest index
attaining it. -/
theorem closest_fold_spec (camera : Vec3) (positions : List Vec3)
    (photoCount : ℕ) (hne : positions ≠ [])
    (hcount : positions.length ≤ photoCount) :
    ∃ m j,
      positions.enum.foldl (closestStep camera photoCount) (none, 0)
        = (some m, j) ∧
      j < positions.length ∧
      (positions.getD j ⟨0, 0, 0⟩).distanceTo camera = m ∧
      (∀ k, k < positions.length →
        m ≤ (positions.getD k ⟨0, 0, 0⟩).distanceTo camera) ∧
      (∀ k, k < j → m < (positions.getD k ⟨0, 0, 0⟩).distanceTo camera) := by
  match positions, hne with
  | v :: tl, _ =>
    have h0 : 0 < photoCount := by
      simp only [List.length_cons] at hcount; omega
    have hcount' : 1 + tl.length ≤ photoCount := by
      simp only [List.length_cons] at hcount; omega
    obtain ⟨m', j', heq, hdisj, hle, hall, hstrict⟩ :=
      closestStep_foldl_spec camera photoCount tl 1 (v.distanceTo camera) 0
        Nat.one_pos hcount'
    have hjlt : j' < (v :: tl).length := by
      rcases hdisj with ⟨_, hj'⟩ | ⟨_, k, hk, hjk, _⟩
      · simp [hj']
      · simp only [List.length_cons]; omega
    refine ⟨m', j', ?_, hjlt, ?_, ?_, ?_⟩
    · rw [show (v :: tl).enum = (0, v) :: List.enumFrom 1 tl from rfl,
        List.foldl_cons,
        show closestStep camera photoCount (none, 0) (0, v)
          = (some (v.distanceTo camera), 0) from by simp [closestStep, h0]]
      exact heq
    · rcases hdisj with ⟨hm', hj'⟩ | ⟨_, k, hk, hjk, hdk⟩
      · rw [hj', List.getD_cons_zero, hm']
      · rw [show j' = k + 1 from by omega, List.getD_cons_succ]
        exact hdk
    · intro k hk
      cases k with
      | zero => simpa [List.getD_cons_zero] using hle
      | succ k =>
          simp only [List.getD_cons_succ]
          exact hall k (by simpa using hk)
    · intro k hkj
      cases k with
      | zero =>
          rcases hdisj with ⟨_, hj'⟩ | ⟨hlt, _⟩
          · omega
          · simpa [List.getD_cons_zero] using hlt
      | succ k =>
          simp only [List.getD_cons_succ]
          have hk : k < tl.length := by
            simp only [List.length_cons] at hjlt; omega
          exact hstrict k hk (by omega)

/-- Claim C10: with two hands detected and a non-empty photo list the
callback is invoked with the URL of the photo closest to the camera, ties
going to the lowest index; with two hands not detected it is invoked with
null; and since Experience always passes twoHandsDetected = false, in the
assembled application the callback can only report null. -/
theorem closest_photo_spec (twoHands : Bool) (photos : List String)
    (positions : List Vec3) (camera : Vec3)
    (hlen : positions.length = photos.length) :
    (twoHands = false →
      closestPhotoCallbackArg twoHands photos positions camera = none) ∧
    closestPhotoCallbackArg experienceTwoHandsDetected photos positions
      camera = none ∧
    (twoHands = true → photos ≠ [] →
      ∃ j, j < positions.length ∧
        closestPhotoCallbackArg twoHands photos positions camera =
          some (photos.getD j "") ∧
        (∀ k, k < positions.length →
          (positions.getD j ⟨0, 0, 0⟩).distanceTo camera ≤
            (positions.getD k ⟨0, 0, 0⟩).distanceTo camera) ∧
        (∀ k, k < j →
          (positions.getD j ⟨0, 0, 0⟩).distanceTo camera <
            (positions.getD k ⟨0, 0, 0⟩).distanceTo camera)) := by
  refine ⟨?_, ?_, ?_⟩
  · intro h; subst h; simp [closestPhotoCallbackArg]
  · simp [closestPhotoCallbackArg, experienceTwoHandsDetected]
  · intro h2 hne
    have hplen : 0 < photos.length := List.length_pos.mpr hne
    have hpos : positions ≠ [] := by
      intro h
      rw [h] at hlen
      simp only [List.length_nil] at hlen
      omega
    obtain ⟨m, j, heq, hjlt, hdist, hall, hstrict⟩ :=
      closest_fold_spec camera positions photos.length hpos (le_of_eq hlen)
    refine ⟨j, hjlt, ?_, ?_, ?_⟩
    · simp [closestPhotoCallbackArg, h2, hplen, heq]
    · intro k hk
      rw [hdist]
      exact hall k hk
    · intro k hk
      rw [hdist]
      exact hstrict k hk

/-- Witness for Claim C10: with two hands not detected (as Experience
mounts it) the callback argument is null. -/
theorem closest_photo_spec_witness :
    ([⟨0, 0, 0⟩, ⟨5, 0, 0⟩] : List Vec3).length =
      (["a.jpg", "b.jpg"] : List String).length ∧
    closestPhotoCallbackArg false ["a.jpg", "b.jpg"]
      [⟨0, 0, 0⟩, ⟨5, 0, 0⟩] ⟨0, 0, 0⟩ = none :=
  ⟨rfl, (closest_photo_spec false ["a.jpg", "b.jpg"]
      [⟨0, 0, 0⟩, ⟨5, 0, 0⟩] ⟨0, 0, 0⟩ rfl).1 rfl⟩

end ChristmasTree
